import Mathlib

/-!
# Verification of the photo-storage microservice core

Shallow embedding of the storage backends (`src/core/storage.py`), the job
envelope codec and submitter (`src/core/processing.py`), the job endpoints
(`src/main.py`) and the database records (`src/core/database/models.py`),
together with theorems settling the specification claims.

Conventions:
* Python byte strings are `List Nat`; machine-level byte bounds play no role
  in any claim, so bytes are unbounded naturals.
* Python exceptions become `Except` errors; the error constructors carry the
  name of the Python exception class that the corresponding call raises.
* The service runs on Linux (uvicorn), so `pathlib.Path` is `PosixPath`.
-/

deriving instance DecidableEq for Except

namespace PhotoStorage

/-- Byte strings (contents of files, blobs and uploads). -/
abbrev Bytes := List Nat

/-! ## pathlib.PurePosixPath.name

`Path(file_name).name` is the final path component of the string: pathlib
splits on `/`, drops empty components and `.` components (but keeps `..`),
and `.name` is the last remaining component, or `""` when none remains.
-/

/-- Split a character list at every `/` (structural version of splitting a
string on the path separator). -/
def splitSlash : List Char → List Char → List String
  | [], acc => [String.mk acc.reverse]
  | c :: rest, acc =>
    if c = '/' then String.mk acc.reverse :: splitSlash rest []
    else splitSlash rest (c :: acc)

/-- The components of a POSIX path string as kept by `pathlib`:
split on `/`, with empty and `.` entries dropped (`..` is kept). -/
def pathComponents (s : String) : List String :=
  (splitSlash s.data []).filter (fun c => c ≠ "" && c ≠ ".")

/-- Model of `pathlib.PurePosixPath(s).name`: the final path component, `""` if none. -/
def pathFinalComponent (s : String) : String :=
  (pathComponents s).getLast?.getD ""

example : pathFinalComponent "a/b/c.png" = "c.png" := by decide
example : pathFinalComponent "/etc/passwd" = "passwd" := by decide
example : pathFinalComponent ".." = ".." := by decide
example : pathFinalComponent "a/.." = ".." := by decide
example : pathFinalComponent "" = "" := by decide
example : pathFinalComponent "a//b" = "b" := by decide

/-! ## Error taxonomy

The native errors the two backends raise (left as-is by the code: neither
`storage.py` nor any caller translates them), plus the three spec categories.
-/

/-- Native errors surfaced by the storage code paths.  The first two are
Python `OSError` subclasses raised by `open`/`unlink`; the rest are
`azure.core.exceptions` classes raised by the Azure blob SDK calls. -/
inductive StorageError
  | fileNotFoundError
  | isADirectoryError
  | resourceNotFoundError
  | resourceExistsError
  | clientAuthenticationError
  | serviceUnavailableError
  deriving DecidableEq, Repr

/-- The three error categories named by the specification. -/
inductive ErrorCategory
  | notFound
  | accessDenied
  | unavailable
  deriving DecidableEq, Repr

/-- The natural assignment of a spec category to each native error; `none`
for a native error that falls outside the spec's three categories. -/
def errorCategory : StorageError → Option ErrorCategory
  | .fileNotFoundError => some .notFound
  | .resourceNotFoundError => some .notFound
  | .clientAuthenticationError => some .accessDenied
  | .serviceUnavailableError => some .unavailable
  | .isADirectoryError => none
  | .resourceExistsError => none

/-! ## Local filesystem backend (`LocalFileSystemStorage`)

The configured root directory is `self._base_directory` (resolved at
construction).  Every operation computes `file_name_only = Path(file_name).name`
and acts on `self._base_directory / file_name_only`.  We model the root
directory's regular files as an association list from file name to contents.
A final component of `""` resolves to the root directory itself and `".."`
resolves to the root's parent directory; `open`/`unlink` on a directory
raise `IsADirectoryError`, touching no regular file.
-/

/-- The regular files directly inside the configured base directory. -/
structure LocalFs where
  files : List (String × Bytes)
  deriving DecidableEq, Repr

def LocalFs.lookup (fs : LocalFs) (n : String) : Option Bytes :=
  (fs.files.find? (fun p => p.1 = n)).map (·.2)

/-- Store `b` under name `n`, overwriting any existing entry. -/
def LocalFs.store (fs : LocalFs) (n : String) (b : Bytes) : LocalFs :=
  if (fs.files.find? (fun p => p.1 = n)).isSome then
    ⟨fs.files.map (fun p => if p.1 = n then (n, b) else p)⟩
  else
    ⟨fs.files ++ [(n, b)]⟩

/-- Remove the entry named `n`. -/
def LocalFs.remove (fs : LocalFs) (n : String) : LocalFs :=
  ⟨fs.files.filter (fun p => p.1 ≠ n)⟩

/-- Does the joined path `base / component` denote a directory rather than a
regular file candidate?  `""` is the base directory itself; `".."` is its
parent directory. -/
def resolvesToDirectory (component : String) : Bool :=
  component = "" || component = ".."

/-- Model of `LocalFileSystemStorage.download_file`: resolve the final component, open
the joined path for reading and copy its bytes into the writable stream
(returned here as the bytes written; the stream itself is treated in the
stream-level model below). -/
def localDownloadFile (fs : LocalFs) (file_name : String) :
    Except StorageError Bytes :=
  let file_name_only := pathFinalComponent file_name
  if resolvesToDirectory file_name_only then
    .error .isADirectoryError
  else
    match fs.lookup file_name_only with
    | some b => .ok b
    | none => .error .fileNotFoundError

/-- Model of `LocalFileSystemStorage.upload_file`: resolve the final component, open
the joined path for writing (truncating silently on collision), write the
readable stream's bytes and return the stored name. -/
def localUploadFile (fs : LocalFs) (file_name : String) (content : Bytes) :
    Except StorageError (String × LocalFs) :=
  let file_name_only := pathFinalComponent file_name
  if resolvesToDirectory file_name_only then
    .error .isADirectoryError
  else
    .ok (file_name_only, fs.store file_name_only content)

/-- Model of `LocalFileSystemStorage.delete_file`: resolve the final component and
`unlink` the joined path with `missing_ok=False`. -/
def localDeleteFile (fs : LocalFs) (file_name : String) :
    Except StorageError LocalFs :=
  let file_name_only := pathFinalComponent file_name
  if resolvesToDirectory file_name_only then
    .error .isADirectoryError
  else if (fs.lookup file_name_only).isSome then
    .ok (fs.remove file_name_only)
  else
    .error .fileNotFoundError

/-! ## Azure blob backend (`AzureBlobStorage`)

One configured container; the caller-supplied name is used verbatim as the
blob key.  `download_blob`/`delete_blob` raise `ResourceNotFoundError` when
the blob is absent; `upload_blob` is called without `overwrite=True`, so the
SDK raises `ResourceExistsError` when a blob with that key already exists.
-/

/-- The blobs of the configured container. -/
structure AzureContainer where
  blobs : List (String × Bytes)
  deriving DecidableEq, Repr

def AzureContainer.lookup (c : AzureContainer) (n : String) : Option Bytes :=
  (c.blobs.find? (fun p => p.1 = n)).map (·.2)

/-- Model of `AzureBlobStorage.download_file`: read the whole blob (`readall`). -/
def azureDownloadFile (c : AzureContainer) (object_name : String) :
    Except StorageError Bytes :=
  match c.lookup object_name with
  | some b => .ok b
  | none => .error .resourceNotFoundError

/-- Model of `AzureBlobStorage.upload_file`: it calls `upload_blob(data=...)` with the default
`overwrite=False`, then return the key unchanged. -/
def azureUploadFile (c : AzureContainer) (object_id : String) (content : Bytes) :
    Except StorageError (String × AzureContainer) :=
  if (c.lookup object_id).isSome then
    .error .resourceExistsError
  else
    .ok (object_id, ⟨c.blobs ++ [(object_id, content)]⟩)

/-- Model of `AzureBlobStorage.delete_file`: it calls `delete_blob()` on the key. -/
def azureDeleteFile (c : AzureContainer) (object_id : String) :
    Except StorageError AzureContainer :=
  if (c.lookup object_id).isSome then
    .ok ⟨c.blobs.filter (fun p => p.1 ≠ object_id)⟩
  else
    .error .resourceNotFoundError

example :
    azureUploadFile ⟨[("cat.png", [1])]⟩ "cat.png" [2] =
      .error .resourceExistsError := by decide

example :
    localUploadFile ⟨[("cat.png", [1])]⟩ "cat.png" [2] =
      .ok ("cat.png", ⟨[("cat.png", [2])]⟩) := by decide

/-! ## The job envelope codec (`src/core/processing.py`)

`InternalImageProcessingJob` is a pydantic model; `model_dump_json`
serializes it to a JSON object with the fields in declaration order, and
`model_validate_json` parses JSON back, requiring every field, mapping JSON
`null` to `None` for the `Optional` field and validating each field against
its declared type.  `change_to_format` is declared `str`, so any JSON string
validates.  We model JSON values directly (the byte string on the wire is
the canonical rendering of the value).
-/

/-- Primitive JSON values.  Every pydantic model in the code is a flat
object of primitives, and a nested object or array fails the same
per-field validations a wrong primitive does, so flat objects suffice. -/
inductive JsonValue
  | null
  | bool (b : Bool)
  | num (n : Int)
  | str (s : String)
  deriving DecidableEq, Repr

/-- A JSON document on the wire: a primitive, or a flat object. -/
inductive Json
  | prim (v : JsonValue)
  | obj (fields : List (String × JsonValue))
  deriving DecidableEq, Repr

/-- First value stored under `key`, as JSON object field lookup. -/
def Json.lookupField : List (String × JsonValue) → String → Option JsonValue
  | [], _ => none
  | (k, v) :: rest, key => if k = key then some v else Json.lookupField rest key

/-- The value of a top-level field of a JSON document. -/
def Json.getField : Json → String → Option JsonValue
  | .obj fields, key => Json.lookupField fields key
  | .prim _, _ => none

/-- Lowercase-hex check for one character of a canonical UUID string. -/
def isHexLowerDigit (c : Char) : Bool :=
  c.isDigit || ('a' ≤ c && c ≤ 'f')

/-- Canonical hyphenated UUID form (8-4-4-4-12 lowercase hex), the form
`uuid.uuid4()` prints and `model_dump_json` emits.  (Python's `uuid.UUID`
constructor also accepts uppercase and wrapped forms; no claim depends on
that leniency.) -/
def isUuidFormat (s : String) : Bool :=
  s.data.length = 36 &&
    s.data.enum.all (fun p =>
      if p.1 = 8 || p.1 = 13 || p.1 = 18 || p.1 = 23 then p.2 = '-'
      else isHexLowerDigit p.2)

/-- A Python `uuid.UUID` value, identified by its canonical string form. -/
structure Uuid where
  text : String
  format_ok : isUuidFormat text = true
  deriving DecidableEq, Repr

/-- The pydantic model `InternalImageProcessingJob` (the envelope sent to the worker). -/
structure InternalImageProcessingJob where
  job_id : Option Uuid
  image_path : String
  resize_image_to_width : Int
  resize_image_to_height : Int
  change_to_format : String
  deriving DecidableEq, Repr

/-- The pydantic model `InternalImageProcessingJobConfirmation` (the worker's reply). -/
structure InternalImageProcessingJobConfirmation where
  is_ok : Bool
  deriving DecidableEq, Repr

/-- Model of `model_dump_json` on `InternalImageProcessingJob`: a JSON object with
the fields in declaration order; the `Optional` `job_id` becomes `null`
when unassigned and the UUID's canonical string otherwise. -/
def encodeInternalImageProcessingJob (job : InternalImageProcessingJob) : Json :=
  .obj [("job_id", match job.job_id with
          | none => .null
          | some u => .str u.text),
        ("image_path", .str job.image_path),
        ("resize_image_to_width", .num job.resize_image_to_width),
        ("resize_image_to_height", .num job.resize_image_to_height),
        ("change_to_format", .str job.change_to_format)]

/-- Validation of the `job_id` field (`Optional[uuid.UUID]`): `null` means
unassigned; a string must be in UUID form. -/
def validateOptionalUuid : Option JsonValue → Except String (Option Uuid)
  | some .null => .ok none
  | some (.str s) =>
    if h : isUuidFormat s = true then .ok (some ⟨s, h⟩)
    else .error "Input should be a valid UUID"
  | some _ => .error "Input should be a valid UUID"
  | none => .error "Field required"

/-- Validation of a `str` field: any JSON string validates. -/
def validateStr : Option JsonValue → Except String String
  | some (.str s) => .ok s
  | some _ => .error "Input should be a valid string"
  | none => .error "Field required"

/-- Validation of an `int` field. -/
def validateInt : Option JsonValue → Except String Int
  | some (.num n) => .ok n
  | some _ => .error "Input should be a valid integer"
  | none => .error "Field required"

/-- Validation of a `bool` field. -/
def validateBool : Option JsonValue → Except String Bool
  | some (.bool b) => .ok b
  | some _ => .error "Input should be a valid boolean"
  | none => .error "Field required"

/-- Model of `InternalImageProcessingJob.model_validate_json`: every declared field
is validated against its declared type; `change_to_format` is declared
`str`, so its value is subject to no further check. -/
def decodeInternalImageProcessingJob (j : Json) :
    Except String InternalImageProcessingJob :=
  match j with
  | .obj fields => do
    let jid ← validateOptionalUuid (Json.lookupField fields "job_id")
    let path ← validateStr (Json.lookupField fields "image_path")
    let w ← validateInt (Json.lookupField fields "resize_image_to_width")
    let h ← validateInt (Json.lookupField fields "resize_image_to_height")
    let fmt ← validateStr (Json.lookupField fields "change_to_format")
    .ok ⟨jid, path, w, h, fmt⟩
  | _ => .error "Input should be an object"

/-- Model of `InternalImageProcessingJobConfirmation.model_validate_json`. -/
def decodeConfirmation (j : Json) :
    Except String InternalImageProcessingJobConfirmation :=
  match j with
  | .obj fields => do
    let ok ← validateBool (Json.lookupField fields "is_ok")
    .ok ⟨ok⟩
  | _ => .error "Input should be an object"

/-- The `value`s of the `ImageFormat` enum, in declaration order (note the
member `DIP` whose value is `"DIB"`). -/
def imageFormatValues : List String :=
  ["BLP", "BMP", "BUFR", "DDS", "DIB", "EPS", "GIF", "GRIB", "HDF5",
   "ICNS", "ICO", "IM", "JPEG", "JPEG2000", "MPS", "PCX", "PNG", "PPM",
   "SGI", "SPIDER", "TGA", "TIFF", "WEBP", "WMF"]

/-- The submission-time membership test of `main.py` (line 214):
`change_to_format in set(f.value for f in ImageFormat)`. -/
def formatAllowed (f : String) : Bool :=
  imageFormatValues.contains f

example : formatAllowed "PNG" = true := by decide
example : formatAllowed "DIB" = true := by decide
example : formatAllowed "DIP" = false := by decide
example : formatAllowed "XYZ" = false := by decide

/-! ## Database records (`src/core/database/models.py`) -/

/-- The `Image` table row. -/
structure Image where
  id : Uuid
  file_name : String
  file_path : String
  uploaded_at : Nat
  owned_by_user_id : Uuid
  deriving DecidableEq, Repr

/-- The `ProcessingJob` table row.  The `job_json_payload` column stores a
JSON-serialized `InternalImageProcessingJob`; we keep the JSON value (the
column holds its canonical rendering). -/
structure ProcessingJob where
  id : Uuid
  job_name : String
  source_image_id : Uuid
  destination_image_id : Option Uuid
  job_json_payload : Json
  status : Option String
  deriving DecidableEq, Repr

/-- The durable contents of the two tables. -/
structure Database where
  images : List Image
  jobs : List ProcessingJob
  deriving DecidableEq, Repr

/-- The foreign-key constraint declared on
`ProcessingJob.source_image_id = Field(foreign_key="image.id")`: every job
row references an existing image row. -/
def Database.fkValid (db : Database) : Prop :=
  ∀ j ∈ db.jobs, ∃ i ∈ db.images, i.id = j.source_image_id

instance (db : Database) : Decidable db.fkValid := by
  unfold Database.fkValid; infer_instance

/-- Modelled from the spec: `SessionDependency` is created in
`core/database/__init__.py`, which is absent from the source tree.  Per the
spec ("record mutation must be durable before the HTTP-level response is
sent", and the Create → Submitted transition requires that on failure "no
record transition occurs"), the session commits explicitly: `database.add`
stages a pending row, `database.commit` makes staged changes durable, and an
endpoint that raises before `commit` leaves the durable database unchanged.
Error branches of the endpoint models below return the durable database
through this function. -/
def sessionDiscardsUncommitted (committedDb : Database) : Database :=
  committedDb

/-! ## Job submitter (`ImageJobSubmitter.submit_processing_job`)

The transport behaviour of the worker side is a parameter: given the request
message it either produces a reply message or fails (`none`, covering a ZMQ
transport failure with no reply).
-/

/-- Errors a job-submission request can surface. -/
inductive SubmitError
  | httpNotFound (detail : String)
  | transportFailure
  | replyValidationError (msg : String)
  | confirmationRejected
  deriving DecidableEq, Repr

/-- Model of `ImageJobSubmitter.submit_processing_job`: serialize the job
with `model_dump_json`, send it on the shared REQ socket, block for exactly
one reply, parse the reply as `InternalImageProcessingJobConfirmation`, and
raise unless `is_ok` is `True`.  The first component lists the messages sent
to the worker. -/
def submit_processing_job (worker : Json → Option Json)
    (job : InternalImageProcessingJob) :
    List Json × Except SubmitError Unit :=
  let serialized_job := encodeInternalImageProcessingJob job
  match worker serialized_job with
  | none => ([serialized_job], .error .transportFailure)
  | some reply =>
    match decodeConfirmation reply with
    | .error e => ([serialized_job], .error (.replyValidationError e))
    | .ok confirmation =>
      if confirmation.is_ok then ([serialized_job], .ok ())
      else ([serialized_job], .error .confirmationRejected)

/-! ## The job-submission endpoint (`main.py`, `submit_new_processing_job`) -/

/-- The request body `PublicImageProcessingJobRequest`. -/
structure PublicImageProcessingJobRequest where
  job_name : String
  resize_image_to_width : Int
  resize_image_to_height : Int
  change_to_format : String
  deriving DecidableEq, Repr

/-- What a job-submission request leaves behind: the messages sent to the
worker, the HTTP-level result, and the durable database. -/
structure SubmitOutcome where
  sent : List Json
  result : Except SubmitError Unit
  db : Database
  deriving DecidableEq, Repr

/-- Model of the `POST /images/{image_id}/jobs` endpoint
(`submit_new_processing_job`): look up the image scoped to the current user,
reject an unknown `change_to_format` before anything else happens, serialize
the internal job while `job_id` is still `None`, stage the `ProcessingJob`
row carrying that serialization, assign `job_id` from the row id, dispatch
via the submitter, and commit only after the submitter returns.
`new_job_id` stands for the row id produced by the `uuid4` default factory. -/
def submit_new_processing_job (db : Database) (current_user_id : Uuid)
    (image_id : Uuid) (job_spec : PublicImageProcessingJobRequest)
    (new_job_id : Uuid) (worker : Json → Option Json) : SubmitOutcome :=
  match db.images.find?
      (fun i => i.owned_by_user_id = current_user_id && i.id = image_id) with
  | none =>
    ⟨[], .error (.httpNotFound "No such image."), sessionDiscardsUncommitted db⟩
  | some source_image =>
    if formatAllowed job_spec.change_to_format then
      let internal_job : InternalImageProcessingJob :=
        ⟨none, source_image.file_path, job_spec.resize_image_to_width,
         job_spec.resize_image_to_height, job_spec.change_to_format⟩
      let serialized := encodeInternalImageProcessingJob internal_job
      let processing_job_model : ProcessingJob :=
        ⟨new_job_id, job_spec.job_name, source_image.id, none, serialized, none⟩
      let dispatched := { internal_job with job_id := some new_job_id }
      match submit_processing_job worker dispatched with
      | (sent, .error e) => ⟨sent, .error e, sessionDiscardsUncommitted db⟩
      | (sent, .ok _) =>
        ⟨sent, .ok (), { db with jobs := db.jobs ++ [processing_job_model] }⟩
    else
      ⟨[], .error (.httpNotFound "Incorrect image format."),
       sessionDiscardsUncommitted db⟩

/-! ## Worker callbacks (`main.py`) -/

/-- Errors a worker callback can surface. -/
inductive CallbackError
  | httpNotFound (detail : String)
  | storageFailure (e : StorageError)
  deriving DecidableEq, Repr

/-- Model of the `PATCH /worker/jobs/{job_id}` endpoint
(`update_job_status_from_worker`): look up the job by id alone — the
endpoint takes no caller identity — and overwrite its `status` with the
supplied string. -/
def update_job_status_from_worker (db : Database) (job_id : Uuid)
    (status : String) : Except CallbackError Unit × Database :=
  match db.jobs.find? (fun j => j.id = job_id) with
  | none => (.error (.httpNotFound "No such job."), db)
  | some _ =>
    (.ok (), { db with jobs := db.jobs.map (fun j =>
        if j.id = job_id then { j with status := some status } else j) })

/-- What a finalize callback leaves behind: the storage-backend upload calls
made (name and bytes), the result, and the durable database. -/
structure FinalizeOutcome where
  storageCalls : List (String × Bytes)
  result : Except CallbackError Unit
  db : Database
  deriving DecidableEq, Repr

/-- Model of the `POST /worker/jobs/{job_id}/finalize` endpoint
(`upload_proceessed_image_from_worker`): look up the job by id alone (no
caller identity), look up its source image, persist the uploaded bytes
through the configured storage backend, and only if that upload returned
create the destination `Image` row and set the job's
`destination_image_id`.  The storage backend is the parameter
`uploadToStorage`, returning the stored path or the native error the
backend raised; `new_image_id` stands for the `uuid4` default id of the
new row. -/
def upload_proceessed_image_from_worker (db : Database) (job_id : Uuid)
    (file_name : String) (file_content : Bytes) (new_image_id : Uuid)
    (uploaded_at : Nat)
    (uploadToStorage : String → Bytes → Except StorageError String) :
    FinalizeOutcome :=
  match db.jobs.find? (fun j => j.id = job_id) with
  | none =>
    ⟨[], .error (.httpNotFound "No such job."), sessionDiscardsUncommitted db⟩
  | some source_image_job =>
    match db.images.find? (fun i => i.id = source_image_job.source_image_id) with
    | none =>
      ⟨[], .error (.httpNotFound "No associated image."),
       sessionDiscardsUncommitted db⟩
    | some source_image =>
      match uploadToStorage file_name file_content with
      | .error e =>
        ⟨[(file_name, file_content)], .error (.storageFailure e),
         sessionDiscardsUncommitted db⟩
      | .ok final_file_path =>
        let new_image : Image :=
          ⟨new_image_id, file_name, final_file_path, uploaded_at,
           source_image.owned_by_user_id⟩
        ⟨[(file_name, file_content)], .ok (),
         { images := db.images ++ [new_image],
           jobs := db.jobs.map (fun j =>
             if j.id = job_id then
               { j with destination_image_id := some new_image_id }
             else j) }⟩

/-! ## Socket-level trace model of the submitter

`ImageJobSubmitter` is a process-wide singleton holding one shared ZMQ REQ
socket.  `submit_processing_job` performs `self._zmq_socket.send(...)`
followed by `self._zmq_socket.recv()`; no lock is acquired anywhere in the
class (the `threading` module is imported by `processing.py` but never
used), so when two request-handler threads call `submit_processing_job`
concurrently the scheduler may interleave their socket actions arbitrarily.
-/

/-- A socket action of one `submit_processing_job` call. -/
inductive SocketAction
  | send
  | recv
  deriving DecidableEq, Repr

/-- The socket actions one call to `submit_processing_job` performs, in
program order: send the request, then block for the reply. -/
def submitSocketActions : List SocketAction := [.send, .recv]

/-- One scheduled event: the given caller performs the given action. -/
structure TraceEvent where
  caller : Nat
  action : SocketAction
  deriving DecidableEq, Repr

/-- The subsequence of a trace contributed by one caller. -/
def projectCaller (t : List TraceEvent) (c : Nat) : List SocketAction :=
  t.filterMap (fun e => if e.caller = c then some e.action else none)

/-- The traces the scheduler can produce while callers 1 and 2 each run one
`submit_processing_job` call concurrently: each caller performs exactly the
call body's socket actions in program order, and — the code acquiring no
lock — the two sequences may interleave in any order. -/
def validConcurrentTrace (t : List TraceEvent) : Prop :=
  projectCaller t 1 = submitSocketActions ∧
  projectCaller t 2 = submitSocketActions ∧
  ∀ e ∈ t, e.caller = 1 ∨ e.caller = 2

instance (t : List TraceEvent) : Decidable (validConcurrentTrace t) := by
  unfold validConcurrentTrace; infer_instance

/-- Subsequence test (order-preserving, not necessarily contiguous). -/
def isSubseqOf : List TraceEvent → List TraceEvent → Bool
  | [], _ => true
  | _ :: _, [] => false
  | a :: as, b :: bs => if a = b then isSubseqOf as bs else isSubseqOf (a :: as) bs

/-- The two exchanges overlap: some caller's request is sent after the other
caller's request but before the other caller's reply arrives. -/
def exchangesOverlap (t : List TraceEvent) : Prop :=
  isSubseqOf [⟨1, .send⟩, ⟨2, .send⟩, ⟨1, .recv⟩] t = true ∨
  isSubseqOf [⟨2, .send⟩, ⟨1, .send⟩, ⟨2, .recv⟩] t = true

/-! ## Stream-level view of `download_file`

The caller hands the backend a writable binary stream (a
`SpooledTemporaryFile` in `main.py`); the two variants leave its cursor in
different places.
-/

/-- A seekable binary stream: contents plus cursor. -/
structure ByteStream where
  data : Bytes
  pos : Nat
  deriving DecidableEq, Repr

/-- Stream write: overwrite from the cursor, extend as needed, and leave the
cursor just past the written bytes. -/
def ByteStream.write (s : ByteStream) (b : Bytes) : ByteStream :=
  ⟨s.data.take s.pos ++ b ++ s.data.drop (s.pos + b.length), s.pos + b.length⟩

/-- Stream rewind, as in `writable.seek(0)`. -/
def ByteStream.seekStart (s : ByteStream) : ByteStream :=
  ⟨s.data, 0⟩

/-- Stream-level model of `LocalFileSystemStorage.download_file`: write the
file's bytes into the caller's stream; the cursor is left where the write
left it. -/
def localDownloadToStream (fs : LocalFs) (file_name : String)
    (writable : ByteStream) : Except StorageError ByteStream :=
  (localDownloadFile fs file_name).map (fun b => writable.write b)

/-- Stream-level model of `AzureBlobStorage.download_file`: write the blob's
bytes into the caller's stream, then `writable.seek(0)`. -/
def azureDownloadToStream (c : AzureContainer) (object_name : String)
    (writable : ByteStream) : Except StorageError ByteStream :=
  (azureDownloadFile c object_name).map (fun b => (writable.write b).seekStart)

/-! ## Absolute-path view of the local backend's resolution

The base directory is `Path(...).resolve()`d at construction, so it is an
absolute path free of `.`/`..` components; we carry it as its component
list.  An operation on caller-supplied `file_name` opens
`base / Path(file_name).name`; the kernel resolves a `..` component against
the directory tree when the file operation runs.
-/

/-- Kernel-style resolution of `..` components (against an already-resolved
prefix; at the filesystem root, `..` stays at the root, which dropping from
the empty list models). -/
def resolveDots (acc : List String) : List String → List String
  | [] => acc
  | c :: rest =>
    if c = ".." then resolveDots acc.dropLast rest
    else resolveDots (acc ++ [c]) rest

/-- The absolute path (as components below the filesystem root) that a local
backend operation on `file_name` touches: `base / Path(file_name).name`,
with `..` resolved (joining the empty component is pathlib's no-op). -/
def localResolvedPath (base : List String) (file_name : String) : List String :=
  let comp := pathFinalComponent file_name
  resolveDots [] (if comp = "" then base else base ++ [comp])

/-- Does the first component list lead the second (the touched path lies at
or below the base directory)? -/
def leadsWith : List String → List String → Bool
  | [], _ => true
  | _ :: _, [] => false
  | a :: as, b :: bs => a = b && leadsWith as bs

/-! ## Concrete values used by witnesses -/

def uuidA : Uuid := ⟨"00000000-0000-4000-8000-00000000000a", by decide⟩
def uuidB : Uuid := ⟨"00000000-0000-4000-8000-00000000000b", by decide⟩
def uuidC : Uuid := ⟨"00000000-0000-4000-8000-00000000000c", by decide⟩
def uuidD : Uuid := ⟨"00000000-0000-4000-8000-00000000000d", by decide⟩

/-- A one-image, one-job database for witnesses. -/
def dbW : Database :=
  ⟨[⟨uuidA, "cat.png", "cat.png", 7, uuidB⟩],
   [⟨uuidC, "resize", uuidA, none,
     encodeInternalImageProcessingJob ⟨none, "cat.png", 100, 100, "PNG"⟩,
     none⟩]⟩

/-! # Theorems

One theorem (plus witness or counterexample where required) per claim of
the specification, in claim order.
-/

/-- Round-trip of the envelope codec, shared by several results below. -/
theorem decode_encode_job (job : InternalImageProcessingJob) :
    decodeInternalImageProcessingJob (encodeInternalImageProcessingJob job) =
      .ok job := by
  obtain ⟨jid, path, w, h, fmt⟩ := job
  cases jid with
  | none => rfl
  | some u =>
    obtain ⟨s, hs⟩ := u
    simp [decodeInternalImageProcessingJob, encodeInternalImageProcessingJob,
      Json.lookupField, validateOptionalUuid, validateStr, validateInt, hs,
      Except.bind]
    rfl

/-- Shared: a submission whose `change_to_format` fails the membership test
sends nothing, errors, and leaves the durable database unchanged. -/
theorem submit_rejects_bad_format (db : Database) (user image_id : Uuid)
    (js : PublicImageProcessingJobRequest) (njid : Uuid)
    (worker : Json → Option Json)
    (hf : formatAllowed js.change_to_format = false) :
    (submit_new_processing_job db user image_id js njid worker).sent = [] ∧
    (submit_new_processing_job db user image_id js njid worker).result ≠ .ok () ∧
    (submit_new_processing_job db user image_id js njid worker).db = db := by
  unfold submit_new_processing_job
  cases hfind : db.images.find?
      (fun i => i.owned_by_user_id = user && i.id = image_id) with
  | none => simp [sessionDiscardsUncommitted]
  | some img => simp [hf, sessionDiscardsUncommitted]

/-- C7: decoding the encoding of any job envelope recovers every field
exactly, including an unassigned `job_id`, which is encoded as the explicit
JSON `null` marker — a value distinct from the encoding of every real id. -/
theorem c7_envelope_roundtrip (job : InternalImageProcessingJob) :
    decodeInternalImageProcessingJob (encodeInternalImageProcessingJob job) =
      .ok job ∧
    (encodeInternalImageProcessingJob job).getField "job_id" =
      some (match job.job_id with
            | none => JsonValue.null
            | some u => JsonValue.str u.text) ∧
    (∀ u : Uuid, JsonValue.null ≠ JsonValue.str u.text) := by
  refine ⟨decode_encode_job job, ?_, fun u h => JsonValue.noConfusion h⟩
  obtain ⟨jid, path, w, h, fmt⟩ := job
  cases jid <;> rfl

/-- Witness for C7 at a concrete envelope with unassigned `job_id`. -/
theorem c7_envelope_roundtrip_witness :
    decodeInternalImageProcessingJob (encodeInternalImageProcessingJob
      ⟨none, "cat.png", 100, 100, "PNG"⟩) =
      .ok ⟨none, "cat.png", 100, 100, "PNG"⟩ :=
  (c7_envelope_roundtrip ⟨none, "cat.png", 100, 100, "PNG"⟩).1

/-- C3 counterexample: a wire document whose `change_to_format` is `"XYZ"` —
outside the enumerated raster-format set — decodes successfully, so the
codec does not reject unknown formats at decode time. -/
theorem c3_decode_accepts_unknown_format :
    decodeInternalImageProcessingJob
      (Json.obj [("job_id", .null), ("image_path", .str "cat.png"),
                 ("resize_image_to_width", .num 100),
                 ("resize_image_to_height", .num 100),
                 ("change_to_format", .str "XYZ")]) =
      .ok ⟨none, "cat.png", 100, 100, "XYZ"⟩ ∧
    formatAllowed "XYZ" = false :=
  ⟨rfl, by decide⟩

/-- C3 amended: the codec accepts any string in `change_to_format`
(`target_format`); the enumerated-set membership check happens only at
submission time, where the endpoint rejects the request before sending
anything to the worker. -/
theorem c3_format_checked_only_at_submission
    (path : String) (w h : Int) (f : String)
    (hf : formatAllowed f = false) :
    decodeInternalImageProcessingJob (encodeInternalImageProcessingJob
      ⟨none, path, w, h, f⟩) = .ok ⟨none, path, w, h, f⟩ ∧
    (∀ (db : Database) (user image_id njid : Uuid)
       (worker : Json → Option Json) (js : PublicImageProcessingJobRequest),
      js.change_to_format = f →
      (submit_new_processing_job db user image_id js njid worker).sent = [] ∧
      (submit_new_processing_job db user image_id js njid worker).result ≠
        .ok ()) := by
  refine ⟨decode_encode_job _, fun db user image_id njid worker js hjs => ?_⟩
  have h := submit_rejects_bad_format db user image_id js njid worker
    (by rw [hjs]; exact hf)
  exact ⟨h.1, h.2.1⟩

/-- Shared: one `submit_processing_job` call sends exactly one message, the
serialized envelope, whatever the worker does. -/
theorem submit_processing_job_sent (worker : Json → Option Json)
    (job : InternalImageProcessingJob) :
    (submit_processing_job worker job).1 =
      [encodeInternalImageProcessingJob job] := by
  simp only [submit_processing_job]
  cases hw : worker (encodeInternalImageProcessingJob job) with
  | none => simp
  | some reply =>
    cases hd : decodeConfirmation reply with
    | error e => simp [hd]
    | ok conf => cases hconf : conf.is_ok <;> simp [hd, hconf]

/-- Shared: every job submission either returns success or leaves the
durable database unchanged. -/
theorem submit_ok_or_db_unchanged (db : Database) (user image_id : Uuid)
    (js : PublicImageProcessingJobRequest) (njid : Uuid)
    (worker : Json → Option Json) :
    (submit_new_processing_job db user image_id js njid worker).result =
      .ok () ∨
    (submit_new_processing_job db user image_id js njid worker).db = db := by
  by_cases hf : formatAllowed js.change_to_format
  · cases hfind : db.images.find?
        (fun i => i.owned_by_user_id = user && i.id = image_id) with
    | none =>
      right; simp [submit_new_processing_job, hfind, sessionDiscardsUncommitted]
    | some img =>
      cases hsub : submit_processing_job worker
          ⟨some njid, img.file_path, js.resize_image_to_width,
           js.resize_image_to_height, js.change_to_format⟩ with
      | mk sent r =>
        cases r with
        | ok u =>
          left
          simp [submit_new_processing_job, hfind, hf, hsub]
        | error e =>
          right
          simp [submit_new_processing_job, hfind, hf, hsub,
            sessionDiscardsUncommitted]
  · right
    exact (submit_rejects_bad_format db user image_id js njid worker
      (by simpa using hf)).2.2

/-- C4: a job-submission request that fails validation sends nothing to the
worker, errors, and persists no record; a request whose dispatch fails
(transport failure, malformed reply, or a worker confirmation with
`is_ok=false`) errors and persists no record. -/
theorem c4_submit_failure_leaves_no_record (db : Database)
    (user image_id : Uuid) (js : PublicImageProcessingJobRequest)
    (njid : Uuid) (worker : Json → Option Json) :
    (formatAllowed js.change_to_format = false →
      (submit_new_processing_job db user image_id js njid worker).sent = [] ∧
      (submit_new_processing_job db user image_id js njid worker).result ≠
        .ok () ∧
      (submit_new_processing_job db user image_id js njid worker).db = db) ∧
    ((submit_new_processing_job db user image_id js njid worker).result ≠
        .ok () →
      (submit_new_processing_job db user image_id js njid worker).db = db) ∧
    (∀ (img : Image) (reply : Json),
      db.images.find?
        (fun i => i.owned_by_user_id = user && i.id = image_id) = some img →
      formatAllowed js.change_to_format = true →
      worker (encodeInternalImageProcessingJob
        ⟨some njid, img.file_path, js.resize_image_to_width,
         js.resize_image_to_height, js.change_to_format⟩) = some reply →
      decodeConfirmation reply = .ok ⟨false⟩ →
      (submit_new_processing_job db user image_id js njid worker).result =
        .error .confirmationRejected ∧
      (submit_new_processing_job db user image_id js njid worker).db = db) := by
  refine ⟨fun hf => submit_rejects_bad_format db user image_id js njid worker hf,
    fun hres => ?_, fun img reply hfind hf hworker hconf => ?_⟩
  · rcases submit_ok_or_db_unchanged db user image_id js njid worker with h | h
    · exact absurd h hres
    · exact h
  · have hsub : submit_processing_job worker
        ⟨some njid, img.file_path, js.resize_image_to_width,
         js.resize_image_to_height, js.change_to_format⟩ =
        ([encodeInternalImageProcessingJob
          ⟨some njid, img.file_path, js.resize_image_to_width,
           js.resize_image_to_height, js.change_to_format⟩],
         .error .confirmationRejected) := by
      simp [submit_processing_job, hworker, hconf]
    constructor <;>
      simp [submit_new_processing_job, hfind, hf, hsub,
        sessionDiscardsUncommitted]

/-- Witness for C4 with a concrete store, one image, and a worker that
replies `is_ok=false`: the request fails and the database is unchanged. -/
theorem c4_submit_failure_leaves_no_record_witness :
    (submit_new_processing_job dbW uuidB uuidA ⟨"resize", 100, 100, "PNG"⟩
      uuidD (fun _ => some (Json.obj [("is_ok", .bool false)]))).result =
      .error .confirmationRejected ∧
    (submit_new_processing_job dbW uuidB uuidA ⟨"resize", 100, 100, "PNG"⟩
      uuidD (fun _ => some (Json.obj [("is_ok", .bool false)]))).db = dbW :=
  (c4_submit_failure_leaves_no_record dbW uuidB uuidA
      ⟨"resize", 100, 100, "PNG"⟩ uuidD
      (fun _ => some (Json.obj [("is_ok", .bool false)]))).2.2
    ⟨uuidA, "cat.png", "cat.png", 7, uuidB⟩
    (Json.obj [("is_ok", .bool false)])
    (by decide) (by decide) rfl rfl

/-- C8: a successful submission persists the envelope serialized before the
record id was assigned — the stored payload's `job_id` field is the JSON
`null` absence marker and never equals the record's own id — while the
envelope actually sent to the worker carries the assigned id; the stored
audit payload therefore differs from the dispatched envelope. -/
theorem c8_stored_payload_predates_id_assignment (db : Database)
    (user image_id : Uuid) (js : PublicImageProcessingJobRequest)
    (njid : Uuid) (worker : Json → Option Json) (img : Image)
    (hfind : db.images.find?
      (fun i => i.owned_by_user_id = user && i.id = image_id) = some img)
    (hok : (submit_new_processing_job db user image_id js njid worker).result =
      .ok ()) :
    (submit_new_processing_job db user image_id js njid worker).db.jobs =
      db.jobs ++ [⟨njid, js.job_name, img.id, none,
        encodeInternalImageProcessingJob
          ⟨none, img.file_path, js.resize_image_to_width,
           js.resize_image_to_height, js.change_to_format⟩, none⟩] ∧
    (submit_new_processing_job db user image_id js njid worker).sent =
      [encodeInternalImageProcessingJob
        ⟨some njid, img.file_path, js.resize_image_to_width,
         js.resize_image_to_height, js.change_to_format⟩] ∧
    (encodeInternalImageProcessingJob
      ⟨none, img.file_path, js.resize_image_to_width,
       js.resize_image_to_height, js.change_to_format⟩).getField "job_id" =
      some .null ∧
    decodeInternalImageProcessingJob (encodeInternalImageProcessingJob
      ⟨none, img.file_path, js.resize_image_to_width,
       js.resize_image_to_height, js.change_to_format⟩) =
      .ok ⟨none, img.file_path, js.resize_image_to_width,
           js.resize_image_to_height, js.change_to_format⟩ ∧
    (none : Option Uuid) ≠ some njid ∧
    encodeInternalImageProcessingJob
      ⟨none, img.file_path, js.resize_image_to_width,
       js.resize_image_to_height, js.change_to_format⟩ ≠
      encodeInternalImageProcessingJob
        ⟨some njid, img.file_path, js.resize_image_to_width,
         js.resize_image_to_height, js.change_to_format⟩ := by
  by_cases hf : formatAllowed js.change_to_format
  · cases hsub : submit_processing_job worker
        ⟨some njid, img.file_path, js.resize_image_to_width,
         js.resize_image_to_height, js.change_to_format⟩ with
    | mk sent r =>
      cases r with
      | ok u =>
        have hsent : sent = [encodeInternalImageProcessingJob
            ⟨some njid, img.file_path, js.resize_image_to_width,
             js.resize_image_to_height, js.change_to_format⟩] := by
          have h1 := congrArg Prod.fst hsub
          rw [submit_processing_job_sent] at h1
          exact h1.symm
        refine ⟨?_, ?_, rfl, decode_encode_job _, by simp, ?_⟩
        · simp [submit_new_processing_job, hfind, hf, hsub]
        · rw [hsent] at hsub
          simp [submit_new_processing_job, hfind, hf, hsub]
        · simp [encodeInternalImageProcessingJob]
      | error e =>
        exfalso
        apply absurd hok
        simp [submit_new_processing_job, hfind, hf, hsub,
          sessionDiscardsUncommitted]
  · exact absurd hok
      (submit_rejects_bad_format db user image_id js njid worker
        (by simpa using hf)).2.1

/-- Witness for C8 at a concrete store with an accepting worker. -/
theorem c8_stored_payload_predates_id_assignment_witness :
    (submit_new_processing_job dbW uuidB uuidA ⟨"resize", 100, 100, "PNG"⟩
      uuidD (fun _ => some (Json.obj [("is_ok", .bool true)]))).db.jobs =
      dbW.jobs ++ [⟨uuidD, "resize", uuidA, none,
        encodeInternalImageProcessingJob ⟨none, "cat.png", 100, 100, "PNG"⟩,
        none⟩] ∧
    (submit_new_processing_job dbW uuidB uuidA ⟨"resize", 100, 100, "PNG"⟩
      uuidD (fun _ => some (Json.obj [("is_ok", .bool true)]))).sent =
      [encodeInternalImageProcessingJob
        ⟨some uuidD, "cat.png", 100, 100, "PNG"⟩] := by
  have h := c8_stored_payload_predates_id_assignment dbW uuidB uuidA
    ⟨"resize", 100, 100, "PNG"⟩ uuidD
    (fun _ => some (Json.obj [("is_ok", .bool true)]))
    ⟨uuidA, "cat.png", "cat.png", 7, uuidB⟩ (by decide) (by decide)
  exact ⟨h.1, h.2.1⟩

/-- Witness for C3's amended theorem at the format `"XYZ"`. -/
theorem c3_format_checked_only_at_submission_witness :
    decodeInternalImageProcessingJob (encodeInternalImageProcessingJob
      ⟨none, "cat.png", 100, 100, "XYZ"⟩) =
      .ok ⟨none, "cat.png", 100, 100, "XYZ"⟩ ∧
    formatAllowed "XYZ" = false :=
  ⟨(c3_format_checked_only_at_submission "cat.png" 100 100 "XYZ"
      (by decide)).1,
   by decide⟩

/-- C6: the finalize callback persists the result bytes through the
configured storage backend and only afterwards sets the job's destination;
if the backend write fails, the callback errors and the durable state —
including the job's `destination_image_id` — is unchanged. -/
theorem c6_finalize_persists_before_destination (db : Database)
    (job_id : Uuid) (file_name : String) (content : Bytes)
    (new_image_id : Uuid) (ts : Nat)
    (up : String → Bytes → Except StorageError String)
    (j : ProcessingJob) (img : Image)
    (hj : db.jobs.find? (fun x => x.id = job_id) = some j)
    (himg : db.images.find? (fun i => i.id = j.source_image_id) = some img) :
    (∀ e, up file_name content = .error e →
      (upload_proceessed_image_from_worker db job_id file_name content
        new_image_id ts up).result = .error (.storageFailure e) ∧
      (upload_proceessed_image_from_worker db job_id file_name content
        new_image_id ts up).db = db) ∧
    (∀ path, up file_name content = .ok path →
      (upload_proceessed_image_from_worker db job_id file_name content
        new_image_id ts up).storageCalls = [(file_name, content)] ∧
      (upload_proceessed_image_from_worker db job_id file_name content
        new_image_id ts up).result = .ok () ∧
      (upload_proceessed_image_from_worker db job_id file_name content
        new_image_id ts up).db =
        ⟨db.images ++ [⟨new_image_id, file_name, path, ts,
           img.owned_by_user_id⟩],
         db.jobs.map (fun x =>
           if x.id = job_id then
             { x with destination_image_id := some new_image_id }
           else x)⟩) := by
  constructor
  · intro e he
    constructor <;>
      simp [upload_proceessed_image_from_worker, hj, himg, he,
        sessionDiscardsUncommitted]
  · intro path hp
    refine ⟨?_, ?_, ?_⟩ <;>
      simp [upload_proceessed_image_from_worker, hj, himg, hp]

/-- Witness for C6 at a concrete store, with a succeeding backend write. -/
theorem c6_finalize_persists_before_destination_witness :
    (upload_proceessed_image_from_worker dbW uuidC "cat2.png" [9] uuidD 8
      (fun n _ => .ok n)).storageCalls = [("cat2.png", [9])] ∧
    (upload_proceessed_image_from_worker dbW uuidC "cat2.png" [9] uuidD 8
      (fun n _ => .ok n)).result = .ok () ∧
    (upload_proceessed_image_from_worker dbW uuidC "cat2.png" [9] uuidD 8
      (fun n _ => .ok n)).db =
      ⟨dbW.images ++ [⟨uuidD, "cat2.png", "cat2.png", 8, uuidB⟩],
       dbW.jobs.map (fun x =>
         if x.id = uuidC then
           { x with destination_image_id := some uuidD }
         else x)⟩ :=
  (c6_finalize_persists_before_destination dbW uuidC "cat2.png" [9] uuidD 8
      (fun n _ => .ok n)
      ⟨uuidC, "resize", uuidA, none,
        encodeInternalImageProcessingJob ⟨none, "cat.png", 100, 100, "PNG"⟩,
        none⟩
      ⟨uuidA, "cat.png", "cat.png", 7, uuidB⟩
      (by decide) (by decide)).2 "cat2.png" rfl

/-- C9: the worker callbacks accept no caller identity (their inputs carry
no user), and for every job id present in the store any caller can set the
job's status to any string; the finalize callback likewise proceeds for any
present job — whose source image exists whenever the declared foreign key
holds — regardless of which user owns that image; the only guards are the
NotFound lookups. -/
theorem c9_worker_callbacks_unauthenticated (db : Database) (job_id : Uuid)
    (status : String) :
    (db.jobs.find? (fun x => x.id = job_id) = none →
      update_job_status_from_worker db job_id status =
        (.error (.httpNotFound "No such job."), db)) ∧
    (∀ j, db.jobs.find? (fun x => x.id = job_id) = some j →
      update_job_status_from_worker db job_id status =
        (.ok (), { db with jobs := db.jobs.map (fun x =>
          if x.id = job_id then { x with status := some status } else x) })) ∧
    (db.fkValid → ∀ j, db.jobs.find? (fun x => x.id = job_id) = some j →
      (db.images.find? (fun i => i.id = j.source_image_id)).isSome) ∧
    (∀ (j : ProcessingJob) (img : Image) (file_name : String)
       (content : Bytes) (new_image_id : Uuid) (ts : Nat)
       (up : String → Bytes → Except StorageError String) (path : String),
      db.jobs.find? (fun x => x.id = job_id) = some j →
      db.images.find? (fun i => i.id = j.source_image_id) = some img →
      up file_name content = .ok path →
      (upload_proceessed_image_from_worker db job_id file_name content
        new_image_id ts up).result = .ok ()) := by
  refine ⟨fun hn => ?_, fun j hj => ?_, fun hfk j hj => ?_,
    fun j img file_name content new_image_id ts up path hj himg hp => ?_⟩
  · simp [update_job_status_from_worker, hn]
  · simp [update_job_status_from_worker, hj]
  · have hmem := List.mem_of_find?_eq_some hj
    obtain ⟨i, hi, hid⟩ := hfk j hmem
    rw [List.find?_isSome]
    exact ⟨i, hi, by simp [hid]⟩
  · simp [upload_proceessed_image_from_worker, hj, himg, hp]

/-- Witness for C9 at a concrete store: an arbitrary status string lands and
a finalize succeeds, with no caller identity anywhere in sight. -/
theorem c9_worker_callbacks_unauthenticated_witness :
    update_job_status_from_worker dbW uuidC "anything at all" =
      (.ok (), { dbW with jobs := dbW.jobs.map (fun x =>
        if x.id = uuidC then { x with status := some "anything at all" }
        else x) }) ∧
    (upload_proceessed_image_from_worker dbW uuidC "out.png" [3] uuidD 9
      (fun n _ => .ok n)).result = .ok () :=
  ⟨(c9_worker_callbacks_unauthenticated dbW uuidC "anything at all").2.1
      ⟨uuidC, "resize", uuidA, none,
        encodeInternalImageProcessingJob ⟨none, "cat.png", 100, 100, "PNG"⟩,
        none⟩ (by decide),
   (c9_worker_callbacks_unauthenticated dbW uuidC "anything at all").2.2.2
      ⟨uuidC, "resize", uuidA, none,
        encodeInternalImageProcessingJob ⟨none, "cat.png", 100, 100, "PNG"⟩,
        none⟩
      ⟨uuidA, "cat.png", "cat.png", 7, uuidB⟩
      "out.png" [3] uuidD 9 (fun n _ => .ok n) "out.png"
      (by decide) (by decide) rfl⟩

/-- C2 (the schedule the claim forbids): with no lock around the
send/receive pair of `submit_processing_job`, the schedule in which caller
2's request is sent after caller 1's request but before caller 1's reply is
received is a valid concurrent schedule — the two exchanges can overlap on
the shared REQ socket. -/
theorem c2_unlocked_submit_allows_overlap :
    validConcurrentTrace
      [⟨1, .send⟩, ⟨2, .send⟩, ⟨1, .recv⟩, ⟨2, .recv⟩] ∧
    exchangesOverlap
      [⟨1, .send⟩, ⟨2, .send⟩, ⟨1, .recv⟩, ⟨2, .recv⟩] :=
  ⟨by decide, Or.inl (by decide)⟩

/-- Resolution adds no `..` steps when the component list has none. -/
theorem resolveDots_no_dotdot :
    ∀ (l acc : List String), ".." ∉ l → resolveDots acc l = acc ++ l
  | [], acc, _ => by simp [resolveDots]
  | c :: rest, acc, h => by
    have hc : c ≠ ".." := fun hcc => h (hcc ▸ List.mem_cons_self ..)
    have hrest : (".." : String) ∉ rest := fun hm => h (List.mem_cons_of_mem _ hm)
    rw [resolveDots, if_neg hc, resolveDots_no_dotdot rest (acc ++ [c]) hrest]
    simp

/-- A component list leads any extension of itself. -/
theorem leadsWith_append :
    ∀ (base l : List String), leadsWith base (base ++ l) = true
  | [], _ => rfl
  | a :: as, l => by simp [leadsWith, leadsWith_append as l]

/-- C5 counterexample: the caller-supplied name `"a/.."` has pathlib final
component `".."` (and so does the bare name `".."`); joined to the root it
resolves to the root's parent directory — outside the root — where the
operation then fails on a directory instead of touching a regular file. -/
theorem c5_dotdot_escapes_root :
    pathFinalComponent "a/.." = ".." ∧
    localResolvedPath ["srv", "photos"] "a/.." = ["srv"] ∧
    leadsWith ["srv", "photos"]
      (localResolvedPath ["srv", "photos"] "a/..") = false ∧
    localDownloadFile ⟨[]⟩ "a/.." = .error .isADirectoryError := by
  refine ⟨by decide, by decide, by decide, by decide⟩

/-- C5 amended: every operation of the local variant acts only on the file
named by the pathlib final component of the supplied name joined to the
root, and whenever that component is neither empty nor `".."` the resolved
path lies directly inside the root; a name resolving to `".."` instead
escapes to the root's parent, where every operation fails on a directory
without touching any regular file. -/
theorem c5_basename_resolution_inside_root (base : List String)
    (fs : LocalFs) (name : String) (content : Bytes)
    (hbase : (".." : String) ∉ base)
    (hcomp : resolvesToDirectory (pathFinalComponent name) = false) :
    localResolvedPath base name = base ++ [pathFinalComponent name] ∧
    leadsWith base (localResolvedPath base name) = true ∧
    localDownloadFile fs name =
      (match fs.lookup (pathFinalComponent name) with
       | some b => .ok b
       | none => .error .fileNotFoundError) ∧
    localUploadFile fs name content =
      .ok (pathFinalComponent name,
           fs.store (pathFinalComponent name) content) ∧
    localDeleteFile fs name =
      (if (fs.lookup (pathFinalComponent name)).isSome then
        .ok (fs.remove (pathFinalComponent name))
       else .error .fileNotFoundError) := by
  have hne : pathFinalComponent name ≠ "" ∧ pathFinalComponent name ≠ ".." := by
    constructor <;> intro h <;> rw [h] at hcomp <;> simp [resolvesToDirectory] at hcomp
  have hres : localResolvedPath base name = base ++ [pathFinalComponent name] := by
    simp only [localResolvedPath]
    rw [if_neg hne.1]
    apply resolveDots_no_dotdot
    intro hm
    rcases List.mem_append.mp hm with h | h
    · exact hbase h
    · exact hne.2 (List.mem_singleton.mp h).symm
  refine ⟨hres, by rw [hres]; exact leadsWith_append base _, ?_, ?_, ?_⟩
  · simp [localDownloadFile, hcomp]
  · simp [localUploadFile, hcomp]
  · simp [localDeleteFile, hcomp]

/-- Witness for C5's amended theorem: `"images/cat.png"` resolves to
`cat.png` directly inside the root. -/
theorem c5_basename_resolution_inside_root_witness :
    localResolvedPath ["srv", "photos"] "images/cat.png" =
      ["srv", "photos", "cat.png"] ∧
    leadsWith ["srv", "photos"]
      (localResolvedPath ["srv", "photos"] "images/cat.png") = true :=
  have h := c5_basename_resolution_inside_root ["srv", "photos"]
    ⟨[("cat.png", [1])]⟩ "images/cat.png" [2] (by decide) (by decide)
  ⟨h.1.trans (by decide), h.2.1⟩

/-- C1 counterexample: against stores with identical contents, uploading to
an already-stored name succeeds on the local variant (silent overwrite) but
fails on the object store with `ResourceExistsError` — a failure outside
the three spec categories — so failures are neither confined to the three
categories nor uniform across variants for the same input. -/
theorem c1_upload_collision_not_uniform :
    localUploadFile ⟨[("cat.png", [1])]⟩ "cat.png" [2] =
      .ok ("cat.png", ⟨[("cat.png", [2])]⟩) ∧
    azureUploadFile ⟨[("cat.png", [1])]⟩ "cat.png" [2] =
      .error .resourceExistsError ∧
    errorCategory .resourceExistsError = none := by
  refine ⟨by decide, by decide, rfl⟩

/-- C1 amended: the code translates nothing onto the three spec categories —
each backend surfaces its native errors, and the observable outcomes differ
across variants (see the upload-collision counterexample) — but for an
absent object the download and delete failures of the two variants do fall
in the same NotFound category. -/
theorem c1_absent_object_errors_agree (fs : LocalFs) (c : AzureContainer)
    (name : String)
    (hdir : resolvesToDirectory (pathFinalComponent name) = false)
    (hfs : fs.lookup (pathFinalComponent name) = none)
    (hc : c.lookup name = none) :
    localDownloadFile fs name = .error .fileNotFoundError ∧
    azureDownloadFile c name = .error .resourceNotFoundError ∧
    localDeleteFile fs name = .error .fileNotFoundError ∧
    azureDeleteFile c name = .error .resourceNotFoundError ∧
    errorCategory .fileNotFoundError = errorCategory .resourceNotFoundError ∧
    errorCategory .fileNotFoundError = some .notFound := by
  refine ⟨?_, ?_, ?_, ?_, rfl, rfl⟩
  · simp [localDownloadFile, hdir, hfs]
  · simp [azureDownloadFile, hc]
  · simp [localDeleteFile, hdir, hfs]
  · simp [azureDeleteFile, hc]

/-- Witness for C1's amended theorem at an empty store and a plain name. -/
theorem c1_absent_object_errors_agree_witness :
    localDownloadFile ⟨[]⟩ "missing.png" = .error .fileNotFoundError ∧
    azureDownloadFile ⟨[]⟩ "missing.png" = .error .resourceNotFoundError :=
  have h := c1_absent_object_errors_agree ⟨[]⟩ ⟨[]⟩ "missing.png"
    (by decide) (by decide) (by decide)
  ⟨h.1, h.2.1⟩

/-- C10: after a successful download into the caller-supplied stream, the
local variant leaves the cursor at the end of the written bytes while the
object-store variant rewinds it to position 0 — observably different
states through the uniform download interface. -/
theorem c10_download_stream_positions_differ (fs : LocalFs)
    (c : AzureContainer) (local_name azure_name : String) (content : Bytes)
    (writable : ByteStream)
    (hl : localDownloadFile fs local_name = .ok content)
    (ha : azureDownloadFile c azure_name = .ok content)
    (hne : content ≠ []) :
    localDownloadToStream fs local_name writable =
      .ok (writable.write content) ∧
    azureDownloadToStream c azure_name writable =
      .ok ((writable.write content).seekStart) ∧
    (writable.write content).pos = writable.pos + content.length ∧
    ((writable.write content).seekStart).pos = 0 ∧
    (writable.write content).pos ≠
      ((writable.write content).seekStart).pos := by
  have hlen : content.length ≠ 0 := fun h0 => hne (List.length_eq_zero.mp h0)
  refine ⟨by simp [localDownloadToStream, hl, Except.map],
    by simp [azureDownloadToStream, ha, Except.map], rfl, rfl, ?_⟩
  show writable.pos + content.length ≠ 0
  omega

/-- Witness for C10 with a two-byte object in both stores. -/
theorem c10_download_stream_positions_differ_witness :
    localDownloadToStream ⟨[("cat.png", [1, 2])]⟩ "cat.png" ⟨[], 0⟩ =
      .ok ⟨[1, 2], 2⟩ ∧
    azureDownloadToStream ⟨[("cat.png", [1, 2])]⟩ "cat.png" ⟨[], 0⟩ =
      .ok ⟨[1, 2], 0⟩ :=
  have h := c10_download_stream_positions_differ ⟨[("cat.png", [1, 2])]⟩
    ⟨[("cat.png", [1, 2])]⟩ "cat.png" "cat.png" [1, 2] ⟨[], 0⟩
    (by decide) (by decide) (by decide)
  ⟨h.1.trans (by decide), h.2.1.trans (by decide)⟩

end PhotoStorage
